import Mathlib

/-!
Shallow embedding of the price-ranking core of `src/main.py`
(GasolinerasTelegramBot): the utility `normalizar`, the great-circle
distance `haversine`, and the filter/rank function
`filtrar_y_obtener_top_3`.

Modelling conventions.
* A station record from the JSON feed is an association list of string
  fields (`RegistroCrudo`); the record appended to `filtradas` after the
  in-place assignments `g["diesel"] = ...`, `g["gasolina"] = ...`,
  `g["distancia"] = ...` mixes string and numeric values, so it is an
  association list of `Valor` (`Registro`).  `setVal` models Python dict
  assignment (overwrite in place if the key exists, append otherwise) and
  `getCampo` models `dict.get(clave, valor_defecto)`.
* Numbers are exact rationals.  The Python builtin `float(...)` applied to
  the feed's plain decimal literals is modelled by `pyFloat`
  (`none` where `float` raises `ValueError`), and `str.replace(",", ".")`
  (a single-character pattern) by the character map `reemplazarChar`.
* The Unicode services of the `unicodedata` module (`normalize('NFD', _)`,
  `category(_) == 'Mn'`) and `str.lower`, and the floating-point value
  actually computed for the haversine distance, are external library
  behaviour: they are parameters collected in the structure `PyLib`.
  The exact real-valued formula of `haversine` from the source is also
  defined below (`haversine`), and claims relate the two.
* `criterio_busqueda` together with `tipo_busqueda` is the sum type
  `Criterio`: the two call sites pass a city string with
  `tipo_busqueda="ciudad"` and a latitude/longitude pair with
  `tipo_busqueda="ubicacion"`.
-/

/-- A value stored in a station dict: the raw feed fields are strings, the
keys written by `filtrar_y_obtener_top_3` hold numbers. -/
inductive Valor where
  | str (s : String) : Valor
  | num (q : ℚ) : Valor
  deriving DecidableEq

/-- A raw station record as it comes from the JSON feed: string fields. -/
abbrev RegistroCrudo := List (String × String)

/-- A station record after the computed keys are assigned. -/
abbrev Registro := List (String × Valor)

/-- Python `g.get(clave, valor_defecto)` on a raw record. -/
def getCampo (g : RegistroCrudo) (clave valor_defecto : String) : String :=
  match g.find? (fun p => p.1 == clave) with
  | some p => p.2
  | none => valor_defecto

/-- Python `r[clave]` lookup on a mixed record, as an option. -/
def getVal (r : Registro) (clave : String) : Option Valor :=
  (r.find? (fun p => p.1 == clave)).map Prod.snd

/-- Python dict assignment `r[clave] = v`: overwrite in place when the key
exists, append otherwise. -/
def setVal (r : Registro) (clave : String) (v : Valor) : Registro :=
  if r.any (fun p => p.1 == clave) then
    r.map (fun p => if p.1 == clave then (clave, v) else p)
  else r ++ [(clave, v)]

/-- A raw record viewed as a mixed record (every field a string value). -/
def aRegistro (g : RegistroCrudo) : Registro :=
  g.map (fun p => (p.1, Valor.str p.2))

/-- Python `s.replace(a, b)` for a single-character pattern `a`, as used in
the source with `.replace(",", ".")`. -/
def reemplazarChar (s : String) (a b : Char) : String :=
  String.mk (s.data.map (fun c => if c = a then b else c))

/-- Numeric value of a list of decimal digit characters. -/
def valorDigitos (l : List Char) : ℕ :=
  l.foldl (fun n c => 10 * n + (c.toNat - 48)) 0

/-- Unsigned part of `pyFloat`: digits with an optional decimal point. -/
def pyFloatSinSigno (cs : List Char) : Option ℚ :=
  let ent := cs.takeWhile (fun c => c ≠ '.')
  match cs.dropWhile (fun c => c ≠ '.') with
  | [] =>
      if ent ≠ [] ∧ ent.all Char.isDigit then
        some ((valorDigitos ent : ℚ))
      else none
  | _ :: frac =>
      if (ent ≠ [] ∨ frac ≠ []) ∧ ent.all Char.isDigit ∧ frac.all Char.isDigit then
        some ((valorDigitos ent : ℚ) + (valorDigitos frac : ℚ) / (10 : ℚ) ^ frac.length)
      else none

/-- Model of the Python builtin `float(s)` restricted to plain decimal
literals (optional sign, digits, optional single decimal point), the only
format the comma-decimal feed fields take after the comma is replaced by a
point.  Returns `none` exactly where `float` raises `ValueError` on such
strings. -/
def pyFloat (s : String) : Option ℚ :=
  match s.data with
  | '-' :: t => (pyFloatSinSigno t).map (fun q => -q)
  | '+' :: t => pyFloatSinSigno t
  | t => pyFloatSinSigno t

/-- The parse `float(g.get(clave, "0").replace(",", "."))` of one numeric
field of a raw station record. -/
def leerNumero (g : RegistroCrudo) (clave : String) : Option ℚ :=
  pyFloat (reemplazarChar (getCampo g clave "0") ',' '.')

/-- External library behaviour the source calls into: the `unicodedata`
NFD decomposition, the combining-mark (category `Mn`) test, `str.lower`,
an uppercase-character test, and the floating-point haversine distance the
interpreter actually computes. -/
structure PyLib where
  nfd : String → String
  catMn : Char → Bool
  lower : String → String
  isUpper : Char → Bool
  haversineF : ℚ → ℚ → ℚ → ℚ → ℚ

/-- Embedding of `normalizar` (src/main.py:38-47): NFD-decompose, drop the
category-`Mn` characters, lowercase. -/
def normalizar (lib : PyLib) (texto : String) : String :=
  lib.lower (String.mk ((lib.nfd texto).data.filter (fun c => !(lib.catMn c))))

/-- Boolean substring test on character lists (Python `aguja in pajar`). -/
def listaEn (aguja : List Char) : List Char → Bool
  | [] => aguja.isEmpty
  | c :: resto => aguja.isPrefixOf (c :: resto) || listaEn aguja resto

/-- Python string membership `aguja in pajar`. -/
def enCadena (aguja pajar : String) : Bool :=
  listaEn aguja.data pajar.data

/-- Two-argument arctangent `math.atan2(y, x)`, via the complex argument. -/
noncomputable def atan2 (y x : ℝ) : ℝ :=
  Complex.arg ⟨x, y⟩

/-- Embedding of `haversine` (src/main.py:92-112) over the reals:
great-circle distance in kilometers between two latitude/longitude pairs
given in degrees. -/
noncomputable def haversine (lat1 lon1 lat2 lon2 : ℝ) : ℝ :=
  let R : ℝ := 6371
  let lat1_rad := lat1 * Real.pi / 180
  let lon1_rad := lon1 * Real.pi / 180
  let lat2_rad := lat2 * Real.pi / 180
  let lon2_rad := lon2 * Real.pi / 180
  let dlon := lon2_rad - lon1_rad
  let dlat := lat2_rad - lat1_rad
  let a := Real.sin (dlat / 2) ^ 2 +
    Real.cos lat1_rad * Real.cos lat2_rad * Real.sin (dlon / 2) ^ 2
  let c := 2 * atan2 (Real.sqrt a) (Real.sqrt (1 - a))
  R * c

/-- The pair `(criterio_busqueda, tipo_busqueda)` of
`filtrar_y_obtener_top_3`: a city string with `tipo_busqueda="ciudad"`, a
latitude/longitude pair with `tipo_busqueda="ubicacion"`. -/
inductive Criterio where
  | ciudad (texto : String) : Criterio
  | ubicacion (lat lon : ℚ) : Criterio

/-- Default value of the `umbral_distancia` parameter of
`filtrar_y_obtener_top_3` (also passed explicitly at the
`recibir_ubicacion` call site, src/main.py:305). -/
def UMBRAL_DISTANCIA_POR_DEFECTO : ℚ := 20

/-- The error message returned when no station passes the filter
(src/main.py:189). -/
def MSG_SIN_RESULTADOS : String :=
  "⚠️ No se encontraron gasolineras que cumplan los criterios de búsqueda (precios válidos, coordenadas, o distancia/ciudad). Prueba con un nombre de ciudad más general o amplía el rango de búsqueda."

/-- One iteration of the filter loop of `filtrar_y_obtener_top_3`
(src/main.py:151-185): parse the two price fields and the two coordinate
fields (any `ValueError` skips the record), reject non-positive prices and
invalid coordinates, then test the search criterion; on success return the
record extended with the computed keys. -/
def procesarGasolinera (lib : PyLib) (criterio_busqueda : Criterio)
    (umbral_distancia : ℚ) (g : RegistroCrudo) : Option Registro :=
  match leerNumero g "Precio Gasoleo A", leerNumero g "Precio Gasolina 95 E5",
      leerNumero g "Latitud", leerNumero g "Longitud (WGS84)" with
  | some diesel, some gasolina, some g_lat, some g_lon =>
      if diesel ≤ 0 ∨ gasolina ≤ 0 then none
      else if (g_lat = 0 ∧ g_lon = 0) ∨
          ¬ (-90 ≤ g_lat ∧ g_lat ≤ 90 ∧ -180 ≤ g_lon ∧ g_lon ≤ 180) then none
      else
        match criterio_busqueda with
        | Criterio.ciudad texto =>
            if enCadena texto (normalizar lib (getCampo g "Municipio" "")) then
              some (setVal (setVal (aRegistro g) "diesel" (Valor.num diesel))
                "gasolina" (Valor.num gasolina))
            else none
        | Criterio.ubicacion user_lat user_lon =>
            if lib.haversineF user_lat user_lon g_lat g_lon ≤ umbral_distancia then
              some (setVal (setVal (setVal (aRegistro g)
                "distancia" (Valor.num (lib.haversineF user_lat user_lon g_lat g_lon)))
                "diesel" (Valor.num diesel))
                "gasolina" (Valor.num gasolina))
            else none
  | _, _, _, _ => none

/-- The list `filtradas` built by the loop of `filtrar_y_obtener_top_3`. -/
def filtradas (lib : PyLib) (gasolineras : List RegistroCrudo)
    (criterio_busqueda : Criterio) (umbral_distancia : ℚ) : List Registro :=
  gasolineras.filterMap (procesarGasolinera lib criterio_busqueda umbral_distancia)

/-- The numeric value stored under a key of a mixed record, with the
default 0 of `x.get("distancia", 0)`; for the fuel keys of records in
`filtradas` the key is always present and numeric, so the Python lookup
`x[combustible]` never takes the default. -/
def precio (x : Registro) (clave : String) : ℚ :=
  match getVal x clave with
  | some (Valor.num q) => q
  | _ => 0

/-- The sort key `(x[combustible], x.get("distancia", 0))` used for the two
`sorted(...)` calls (src/main.py:193-194). -/
def claveOrden (x : Registro) (combustible : String) : ℚ × ℚ :=
  (precio x combustible, precio x "distancia")

/-- Lexicographic comparison of sort keys, as Python compares key tuples. -/
def leLex (a b : ℚ × ℚ) : Bool :=
  decide (a.1 < b.1 ∨ (a.1 = b.1 ∧ a.2 ≤ b.2))

/-- The comparison `sorted(..., key=lambda x: (x[combustible],
x.get("distancia", 0)))` induces between two records. -/
def leCombustible (combustible : String) (x y : Registro) : Bool :=
  leLex (claveOrden x combustible) (claveOrden y combustible)

/-- Embedding of `filtrar_y_obtener_top_3` (src/main.py:143-197).  In the
source `umbral_distancia` has default value 20
(`UMBRAL_DISTANCIA_POR_DEFECTO`).  Python's `sorted` is a stable ascending
sort by key, i.e. `List.mergeSort` with the lexicographic key order. -/
def filtrar_y_obtener_top_3 (lib : PyLib) (gasolineras : List RegistroCrudo)
    (criterio_busqueda : Criterio) (umbral_distancia : ℚ) :
    Option (List Registro × List Registro) × Option String :=
  let fs := filtradas lib gasolineras criterio_busqueda umbral_distancia
  if fs.isEmpty then
    (none, some MSG_SIN_RESULTADOS)
  else
    let top_diesel := (fs.mergeSort (leCombustible "diesel")).take 3
    let top_gasolina := (fs.mergeSort (leCombustible "gasolina")).take 3
    (some (top_diesel, top_gasolina), none)

/-- A concrete instantiation of the external library parameters used by
the closed test theorems: identity NFD, no combining marks, identity
lowercasing, no uppercase test, and a floating-point distance computation
that returns 0. -/
def lib0 : PyLib where
  nfd := fun s => s
  catMn := fun _ => false
  lower := fun s => s
  isUpper := fun _ => false
  haversineF := fun _ _ _ _ => 0

/-- A concrete Unicode model that recognises the combining acute accent
(U+0301) as a category-`Mn` character. -/
def lib1 : PyLib where
  nfd := fun s => s
  catMn := fun c => c.toNat == 769
  lower := fun s => s
  isUpper := fun _ => false
  haversineF := fun _ _ _ _ => 0

/-- A well-formed example station record. -/
def gEjemplo : RegistroCrudo :=
  [("Municipio", "madrid"), ("Precio Gasoleo A", "1,459"),
   ("Precio Gasolina 95 E5", "1,512"), ("Latitud", "40,4168"),
   ("Longitud (WGS84)", "-3,7038")]

/-- The record `gEjemplo` after a successful city-mode loop iteration. -/
def rEjemplo : Registro :=
  setVal (setVal (aRegistro gEjemplo) "diesel" (Valor.num (1459 / 1000)))
    "gasolina" (Valor.num (1512 / 1000))

/-- The record `gEjemplo` after a successful location-mode loop iteration
under `lib0` (whose distance computation returns 0). -/
def rEjemploUbicacion : Registro :=
  setVal (setVal (setVal (aRegistro gEjemplo) "distancia" (Valor.num 0))
    "diesel" (Valor.num (1459 / 1000))) "gasolina" (Valor.num (1512 / 1000))

/-- A station record with valid prices and a valid longitude whose
`Latitud` field is missing. -/
def gFaltaLatitud : RegistroCrudo :=
  [("Municipio", "madrid"), ("Precio Gasoleo A", "1,5"),
   ("Precio Gasolina 95 E5", "1,4"), ("Longitud (WGS84)", "3,5")]

/-- A station record whose diesel price field does not parse. -/
def gMalformada : RegistroCrudo :=
  [("Municipio", "madrid"), ("Precio Gasoleo A", "abc")]

/-- A station record with no price fields at all. -/
def gSinPrecios : RegistroCrudo :=
  [("Municipio", "madrid")]

/-- A station record missing only its gasolina price field. -/
def gSinGasolina : RegistroCrudo :=
  [("Municipio", "madrid"), ("Precio Gasoleo A", "1,5"),
   ("Latitud", "40,4168"), ("Longitud (WGS84)", "-3,7038")]

/-! ### Lemmas about record lookup and Python dict assignment -/

theorem getVal_setVal_self (r : Registro) (k : String) (v : Valor) :
    getVal (setVal r k v) k = some v := by
  by_cases h : r.any (fun p => p.1 == k) = true
  · have hmap : ((fun p : String × Valor => p.1 == k) ∘
        fun p : String × Valor => if p.1 == k then (k, v) else p) =
        fun p : String × Valor => p.1 == k := by
      funext p
      by_cases hp : p.1 = k <;> simp [Function.comp, hp]
    obtain ⟨q, hq⟩ := Option.isSome_iff_exists.mp
      (List.find?_isSome.mpr (List.any_eq_true.mp h))
    have hqk := List.find?_some hq
    simp only [getVal, setVal, h, if_true, List.find?_map, hmap, hq]
    simp only [beq_iff_eq] at hqk
    simp [hqk]
  · have hnone : r.find? (fun p => p.1 == k) = none := by
      rw [List.find?_eq_none]
      intro p hp hk
      exact h (List.any_eq_true.mpr ⟨p, hp, hk⟩)
    simp [getVal, setVal, h, List.find?_append, hnone, List.find?]

theorem getVal_setVal_otro (r : Registro) (k k2 : String) (v : Valor)
    (h : k2 ≠ k) : getVal (setVal r k v) k2 = getVal r k2 := by
  by_cases ha : r.any (fun p => p.1 == k) = true
  · have hmap : ((fun p : String × Valor => p.1 == k2) ∘
        fun p : String × Valor => if p.1 == k then (k, v) else p) =
        fun p : String × Valor => p.1 == k2 := by
      funext p
      by_cases hp : p.1 = k
      · simp [hp, Ne.symm h, h]
      · simp [hp]
    simp only [getVal, setVal, ha, if_true, List.find?_map, hmap]
    cases hq : r.find? (fun p => p.1 == k2) with
    | none => simp
    | some q =>
        have hqk := List.find?_some hq
        simp only [beq_iff_eq] at hqk
        simp [hqk, h]
  · have hk2 : ((k, v).1 == k2) = false := by
      simpa using Ne.symm h
    simp [getVal, setVal, ha, List.find?_append, List.find?, hk2]

theorem getVal_aRegistro (g : RegistroCrudo) (k : String) :
    getVal (aRegistro g) k =
      (g.find? (fun p => p.1 == k)).map (fun p => Valor.str p.2) := by
  unfold getVal aRegistro
  rw [List.find?_map]
  have hmap : ((fun p : String × Valor => p.1 == k) ∘
      fun p : String × String => (p.1, Valor.str p.2)) =
      fun p : String × String => p.1 == k := rfl
  rw [hmap]
  cases g.find? (fun p => p.1 == k) <;> simp

/-! ### The key order is transitive and total -/

theorem leLex_trans (a b c : ℚ × ℚ) (hab : leLex a b = true)
    (hbc : leLex b c = true) : leLex a c = true := by
  simp only [leLex, decide_eq_true_iff] at hab hbc ⊢
  rcases hab with h1 | ⟨h1, h2⟩ <;> rcases hbc with h3 | ⟨h3, h4⟩
  · exact Or.inl (h1.trans h3)
  · exact Or.inl (h3 ▸ h1)
  · exact Or.inl (h1 ▸ h3)
  · exact Or.inr ⟨h1.trans h3, h2.trans h4⟩

theorem leLex_total (a b : ℚ × ℚ) : (leLex a b || leLex b a) = true := by
  simp only [leLex, Bool.or_eq_true, decide_eq_true_iff]
  rcases lt_trichotomy a.1 b.1 with h | h | h
  · exact Or.inl (Or.inl h)
  · rcases le_total a.2 b.2 with h2 | h2
    · exact Or.inl (Or.inr ⟨h, h2⟩)
    · exact Or.inr (Or.inr ⟨h.symm, h2⟩)
  · exact Or.inr (Or.inl h)

theorem leCombustible_trans (f : String) (a b c : Registro)
    (hab : leCombustible f a b = true) (hbc : leCombustible f b c = true) :
    leCombustible f a c = true :=
  leLex_trans _ _ _ hab hbc

theorem leCombustible_total (f : String) (a b : Registro) :
    (leCombustible f a b || leCombustible f b a) = true :=
  leLex_total _ _

theorem leCombustible_precio_le (f : String) (x y : Registro)
    (h : leCombustible f x y = true) : precio x f ≤ precio y f := by
  simp only [leCombustible, leLex, claveOrden, decide_eq_true_iff] at h
  rcases h with h | ⟨h, _⟩
  · exact h.le
  · exact h.le

/-! ### Structure of the sorted prefix -/

theorem mergeSort_take_pairwise (fs : List Registro) (f : String) :
    ((fs.mergeSort (leCombustible f)).take 3).Pairwise
      (fun x y => leCombustible f x y = true) :=
  List.Pairwise.sublist (List.take_sublist 3 _)
    (List.sorted_mergeSort (leCombustible_trans f) (leCombustible_total f) fs)

theorem mergeSort_take_drop (fs : List Registro) (f : String) :
    fs.Perm ((fs.mergeSort (leCombustible f)).take 3 ++
      (fs.mergeSort (leCombustible f)).drop 3) ∧
    ∀ x ∈ (fs.mergeSort (leCombustible f)).take 3,
      ∀ y ∈ (fs.mergeSort (leCombustible f)).drop 3,
        leCombustible f x y = true := by
  constructor
  · rw [List.take_append_drop]
    exact (List.mergeSort_perm fs _).symm
  · have hp := List.sorted_mergeSort
      (leCombustible_trans f) (leCombustible_total f) fs
    rw [← List.take_append_drop 3 (fs.mergeSort (leCombustible f))] at hp
    exact (List.pairwise_append.mp hp).2.2

/-- Inversion of a successful run of `filtrar_y_obtener_top_3`. -/
theorem filtrar_eq_some (lib : PyLib) (gs : List RegistroCrudo) (c : Criterio)
    (u : ℚ) (td tg : List Registro)
    (h : filtrar_y_obtener_top_3 lib gs c u = (some (td, tg), none)) :
    filtradas lib gs c u ≠ [] ∧
    td = ((filtradas lib gs c u).mergeSort (leCombustible "diesel")).take 3 ∧
    tg = ((filtradas lib gs c u).mergeSort (leCombustible "gasolina")).take 3 := by
  unfold filtrar_y_obtener_top_3 at h
  by_cases he : (filtradas lib gs c u).isEmpty = true
  · simp [he] at h
  · simp only [he, if_false, Bool.false_eq_true] at h
    rw [Prod.mk.injEq] at h
    obtain ⟨h1, -⟩ := h
    rw [Option.some.injEq, Prod.mk.injEq] at h1
    refine ⟨?_, h1.1.symm, h1.2.symm⟩
    simpa [List.isEmpty_iff] using he

/-! ### Inversion and introduction lemmas for one loop iteration -/

theorem procesar_eq_some (lib : PyLib) (c : Criterio) (u : ℚ)
    (g : RegistroCrudo) (r : Registro)
    (h : procesarGasolinera lib c u g = some r) :
    ∃ d q la lo,
      leerNumero g "Precio Gasoleo A" = some d ∧
      leerNumero g "Precio Gasolina 95 E5" = some q ∧
      leerNumero g "Latitud" = some la ∧
      leerNumero g "Longitud (WGS84)" = some lo ∧
      0 < d ∧ 0 < q ∧
      ¬ (la = 0 ∧ lo = 0) ∧ -90 ≤ la ∧ la ≤ 90 ∧ -180 ≤ lo ∧ lo ≤ 180 ∧
      ((∃ texto, c = Criterio.ciudad texto ∧
          enCadena texto (normalizar lib (getCampo g "Municipio" "")) = true ∧
          r = setVal (setVal (aRegistro g) "diesel" (Valor.num d))
            "gasolina" (Valor.num q)) ∨
       (∃ ulat ulon, c = Criterio.ubicacion ulat ulon ∧
          lib.haversineF ulat ulon la lo ≤ u ∧
          r = setVal (setVal (setVal (aRegistro g)
            "distancia" (Valor.num (lib.haversineF ulat ulon la lo)))
            "diesel" (Valor.num d)) "gasolina" (Valor.num q))) := by
  unfold procesarGasolinera at h
  split at h
  case h_2 => exact Option.noConfusion h
  case h_1 d q la lo hd hq hla hlo =>
  by_cases h1 : d ≤ 0 ∨ q ≤ 0
  · rw [if_pos h1] at h
    exact Option.noConfusion h
  rw [if_neg h1] at h
  by_cases h2 : (la = 0 ∧ lo = 0) ∨
      ¬ (-90 ≤ la ∧ la ≤ 90 ∧ -180 ≤ lo ∧ lo ≤ 180)
  · rw [if_pos h2] at h
    exact Option.noConfusion h
  rw [if_neg h2] at h
  push_neg at h1
  have h2' : ¬ (la = 0 ∧ lo = 0) ∧
      (-90 ≤ la ∧ la ≤ 90 ∧ -180 ≤ lo ∧ lo ≤ 180) := by
    constructor
    · intro hz
      exact h2 (Or.inl hz)
    · by_contra hr
      exact h2 (Or.inr hr)
  refine ⟨d, q, la, lo, hd, hq, hla, hlo, h1.1, h1.2, h2'.1,
    h2'.2.1, h2'.2.2.1, h2'.2.2.2.1, h2'.2.2.2.2, ?_⟩
  split at h
  next texto =>
      by_cases h3 : enCadena texto (normalizar lib (getCampo g "Municipio" "")) = true
      · rw [if_pos h3] at h
        exact Or.inl ⟨texto, rfl, h3, ((Option.some.injEq _ _).mp h).symm⟩
      · rw [if_neg h3] at h
        exact Option.noConfusion h
  next ulat ulon =>
      by_cases h3 : lib.haversineF ulat ulon la lo ≤ u
      · rw [if_pos h3] at h
        exact Or.inr ⟨ulat, ulon, rfl, h3, ((Option.some.injEq _ _).mp h).symm⟩
      · rw [if_neg h3] at h
        exact Option.noConfusion h

theorem procesar_ciudad_eq (lib : PyLib) (u : ℚ) (g : RegistroCrudo)
    (texto : String) (d q la lo : ℚ)
    (hd : leerNumero g "Precio Gasoleo A" = some d)
    (hq : leerNumero g "Precio Gasolina 95 E5" = some q)
    (hla : leerNumero g "Latitud" = some la)
    (hlo : leerNumero g "Longitud (WGS84)" = some lo)
    (h1 : ¬ (d ≤ 0 ∨ q ≤ 0))
    (h2 : ¬ ((la = 0 ∧ lo = 0) ∨
      ¬ (-90 ≤ la ∧ la ≤ 90 ∧ -180 ≤ lo ∧ lo ≤ 180))) :
    procesarGasolinera lib (Criterio.ciudad texto) u g =
      if enCadena texto (normalizar lib (getCampo g "Municipio" "")) then
        some (setVal (setVal (aRegistro g) "diesel" (Valor.num d))
          "gasolina" (Valor.num q))
      else none := by
  unfold procesarGasolinera
  simp only [hd, hq, hla, hlo]
  rw [if_neg h1, if_neg h2]

theorem procesar_ubicacion_eq (lib : PyLib) (u : ℚ) (g : RegistroCrudo)
    (ulat ulon : ℚ) (d q la lo : ℚ)
    (hd : leerNumero g "Precio Gasoleo A" = some d)
    (hq : leerNumero g "Precio Gasolina 95 E5" = some q)
    (hla : leerNumero g "Latitud" = some la)
    (hlo : leerNumero g "Longitud (WGS84)" = some lo)
    (h1 : ¬ (d ≤ 0 ∨ q ≤ 0))
    (h2 : ¬ ((la = 0 ∧ lo = 0) ∨
      ¬ (-90 ≤ la ∧ la ≤ 90 ∧ -180 ≤ lo ∧ lo ≤ 180))) :
    procesarGasolinera lib (Criterio.ubicacion ulat ulon) u g =
      if lib.haversineF ulat ulon la lo ≤ u then
        some (setVal (setVal (setVal (aRegistro g)
          "distancia" (Valor.num (lib.haversineF ulat ulon la lo)))
          "diesel" (Valor.num d)) "gasolina" (Valor.num q))
      else none := by
  unfold procesarGasolinera
  simp only [hd, hq, hla, hlo]
  rw [if_neg h1, if_neg h2]

theorem procesar_none_of_parse_fail (lib : PyLib) (c : Criterio) (u : ℚ)
    (g : RegistroCrudo)
    (h : leerNumero g "Precio Gasoleo A" = none ∨
      leerNumero g "Precio Gasolina 95 E5" = none ∨
      leerNumero g "Latitud" = none ∨
      leerNumero g "Longitud (WGS84)" = none) :
    procesarGasolinera lib c u g = none := by
  cases hr : procesarGasolinera lib c u g with
  | none => rfl
  | some r =>
      obtain ⟨d, q, la, lo, hd, hq, hla, hlo, -⟩ := procesar_eq_some lib c u g r hr
      rcases h with h | h | h | h
      · rw [hd] at h
        exact Option.noConfusion h
      · rw [hq] at h
        exact Option.noConfusion h
      · rw [hla] at h
        exact Option.noConfusion h
      · rw [hlo] at h
        exact Option.noConfusion h

/-! ### Claims -/

/-- C2: in city mode a station is admitted to the filtered set (the loop
iteration returns `some`) if and only if its diesel and gasolina price
fields parse to strictly positive values, its latitude/longitude parse to
a valid coordinate (not both 0, latitude in [-90, 90], longitude in
[-180, 180]), and the search string is a substring of the normalized
`Municipio` field. -/
theorem C2_admision_ciudad (lib : PyLib) (u : ℚ) (g : RegistroCrudo)
    (texto : String) :
    (procesarGasolinera lib (Criterio.ciudad texto) u g).isSome = true ↔
      ((∃ d, leerNumero g "Precio Gasoleo A" = some d ∧ 0 < d) ∧
       (∃ q, leerNumero g "Precio Gasolina 95 E5" = some q ∧ 0 < q) ∧
       (∃ la lo, leerNumero g "Latitud" = some la ∧
         leerNumero g "Longitud (WGS84)" = some lo ∧
         ¬ (la = 0 ∧ lo = 0) ∧
         -90 ≤ la ∧ la ≤ 90 ∧ -180 ≤ lo ∧ lo ≤ 180) ∧
       enCadena texto (normalizar lib (getCampo g "Municipio" "")) = true) := by
  constructor
  · intro h
    obtain ⟨r, hr⟩ := Option.isSome_iff_exists.mp h
    obtain ⟨d, q, la, lo, hd, hq, hla, hlo, hd0, hq0, hz, ha, hb, hc, he, hmode⟩ :=
      procesar_eq_some _ _ _ _ _ hr
    refine ⟨⟨d, hd, hd0⟩, ⟨q, hq, hq0⟩, ⟨la, lo, hla, hlo, hz, ha, hb, hc, he⟩, ?_⟩
    rcases hmode with ⟨texto2, htx, hen, -⟩ | ⟨ulat, ulon, htx, -⟩
    · injection htx with hte
      subst hte
      exact hen
    · exact Criterio.noConfusion htx
  · rintro ⟨⟨d, hd, hd0⟩, ⟨q, hq, hq0⟩, ⟨la, lo, hla, hlo, hz, ha, hb, hc, he⟩, hen⟩
    have h1 : ¬ (d ≤ 0 ∨ q ≤ 0) := by
      push_neg
      exact ⟨hd0, hq0⟩
    have h2 : ¬ ((la = 0 ∧ lo = 0) ∨
        ¬ (-90 ≤ la ∧ la ≤ 90 ∧ -180 ≤ lo ∧ lo ≤ 180)) := by
      rintro (hzz | hno)
      · exact hz hzz
      · exact hno ⟨ha, hb, hc, he⟩
    rw [procesar_ciudad_eq lib u g texto d q la lo hd hq hla hlo h1 h2, if_pos hen]
    rfl

/-- C3: in location mode a price- and coordinate-valid station is admitted
if and only if the haversine great-circle distance from the user
coordinate is at most `umbral_distancia` (whose default is 20 km); the
comparison the interpreter performs on its floating-point distance value
is assumed to agree with the exact real comparison (`hfloat`). -/
theorem C3_admision_ubicacion (lib : PyLib) (u : ℚ) (g : RegistroCrudo)
    (ulat ulon d q la lo : ℚ)
    (hd : leerNumero g "Precio Gasoleo A" = some d) (hd0 : 0 < d)
    (hq : leerNumero g "Precio Gasolina 95 E5" = some q) (hq0 : 0 < q)
    (hla : leerNumero g "Latitud" = some la)
    (hlo : leerNumero g "Longitud (WGS84)" = some lo)
    (hz : ¬ (la = 0 ∧ lo = 0))
    (hrange : -90 ≤ la ∧ la ≤ 90 ∧ -180 ≤ lo ∧ lo ≤ 180)
    (hfloat : lib.haversineF ulat ulon la lo ≤ u ↔
      haversine (ulat : ℝ) (ulon : ℝ) (la : ℝ) (lo : ℝ) ≤ (u : ℝ)) :
    ((procesarGasolinera lib (Criterio.ubicacion ulat ulon) u g).isSome = true ↔
      haversine (ulat : ℝ) (ulon : ℝ) (la : ℝ) (lo : ℝ) ≤ (u : ℝ)) ∧
    UMBRAL_DISTANCIA_POR_DEFECTO = 20 := by
  have h1 : ¬ (d ≤ 0 ∨ q ≤ 0) := by
    push_neg
    exact ⟨hd0, hq0⟩
  have h2 : ¬ ((la = 0 ∧ lo = 0) ∨
      ¬ (-90 ≤ la ∧ la ≤ 90 ∧ -180 ≤ lo ∧ lo ≤ 180)) := by
    rintro (hzz | hno)
    · exact hz hzz
    · exact hno hrange
  rw [procesar_ubicacion_eq lib u g ulat ulon d q la lo hd hq hla hlo h1 h2]
  refine ⟨?_, rfl⟩
  by_cases h3 : lib.haversineF ulat ulon la lo ≤ u
  · simp only [if_pos h3, Option.isSome_some, true_iff]
    exact hfloat.mp h3
  · simp only [if_neg h3, Option.isSome_none, Bool.false_eq_true, false_iff]
    exact fun hcontr => h3 (hfloat.mpr hcontr)

/-- C1: on success each top list holds at most three records of the
filtered set, and splits the filtered set (as a multiset) so that the
corresponding fuel price of every returned record is at most that of every
filtered record left out. -/
theorem C1_top3_mas_baratas (lib : PyLib) (gs : List RegistroCrudo)
    (c : Criterio) (u : ℚ) (td tg : List Registro)
    (h : filtrar_y_obtener_top_3 lib gs c u = (some (td, tg), none)) :
    td.length ≤ 3 ∧ tg.length ≤ 3 ∧
    (∀ x ∈ td, x ∈ filtradas lib gs c u) ∧
    (∀ x ∈ tg, x ∈ filtradas lib gs c u) ∧
    (∃ resto, (filtradas lib gs c u).Perm (td ++ resto) ∧
      ∀ x ∈ td, ∀ y ∈ resto, precio x "diesel" ≤ precio y "diesel") ∧
    (∃ resto, (filtradas lib gs c u).Perm (tg ++ resto) ∧
      ∀ x ∈ tg, ∀ y ∈ resto, precio x "gasolina" ≤ precio y "gasolina") := by
  obtain ⟨-, htd, htg⟩ := filtrar_eq_some lib gs c u td tg h
  subst htd
  subst htg
  refine ⟨?_, ?_, ?_, ?_, ?_, ?_⟩
  · rw [List.length_take]
    exact min_le_left _ _
  · rw [List.length_take]
    exact min_le_left _ _
  · intro x hx
    exact (List.mergeSort_perm _ _).subset ((List.take_sublist 3 _).subset hx)
  · intro x hx
    exact (List.mergeSort_perm _ _).subset ((List.take_sublist 3 _).subset hx)
  · obtain ⟨hperm, hle⟩ := mergeSort_take_drop (filtradas lib gs c u) "diesel"
    exact ⟨_, hperm, fun x hx y hy =>
      leCombustible_precio_le _ x y (hle x hx y hy)⟩
  · obtain ⟨hperm, hle⟩ := mergeSort_take_drop (filtradas lib gs c u) "gasolina"
    exact ⟨_, hperm, fun x hx y hy =>
      leCombustible_precio_le _ x y (hle x hx y hy)⟩

/-- C5: every record returned in either top list comes from an input
station whose two price fields both parse to strictly positive values; a
station lacking a valid price for one fuel therefore appears in neither
list. -/
theorem C5_precios_validos_en_top (lib : PyLib) (gs : List RegistroCrudo)
    (c : Criterio) (u : ℚ) (td tg : List Registro) (r : Registro)
    (h : filtrar_y_obtener_top_3 lib gs c u = (some (td, tg), none))
    (hr : r ∈ td ∨ r ∈ tg) :
    ∃ g, g ∈ gs ∧ procesarGasolinera lib c u g = some r ∧
      (∃ d, leerNumero g "Precio Gasoleo A" = some d ∧ 0 < d) ∧
      (∃ q, leerNumero g "Precio Gasolina 95 E5" = some q ∧ 0 < q) := by
  obtain ⟨-, htd, htg⟩ := filtrar_eq_some lib gs c u td tg h
  have hmem : r ∈ filtradas lib gs c u := by
    rcases hr with hr | hr
    · subst htd
      exact (List.mergeSort_perm _ _).subset ((List.take_sublist 3 _).subset hr)
    · subst htg
      exact (List.mergeSort_perm _ _).subset ((List.take_sublist 3 _).subset hr)
  obtain ⟨g, hg, hpg⟩ := List.mem_filterMap.mp hmem
  obtain ⟨d, q, la, lo, hd, hq, hla, hlo, hd0, hq0, -⟩ :=
    procesar_eq_some _ _ _ _ _ hpg
  exact ⟨g, hg, hpg, ⟨d, hd, hd0⟩, ⟨q, hq, hq0⟩⟩

/-- C6: each returned top list is sorted by non-decreasing price of its
fuel, ties broken by non-decreasing stored distance (0 when the record has
no stored distance, as in city mode). -/
theorem C6_top3_ordenadas (lib : PyLib) (gs : List RegistroCrudo)
    (c : Criterio) (u : ℚ) (td tg : List Registro)
    (h : filtrar_y_obtener_top_3 lib gs c u = (some (td, tg), none)) :
    td.Pairwise (fun x y => precio x "diesel" < precio y "diesel" ∨
      (precio x "diesel" = precio y "diesel" ∧
        precio x "distancia" ≤ precio y "distancia")) ∧
    tg.Pairwise (fun x y => precio x "gasolina" < precio y "gasolina" ∨
      (precio x "gasolina" = precio y "gasolina" ∧
        precio x "distancia" ≤ precio y "distancia")) := by
  obtain ⟨-, htd, htg⟩ := filtrar_eq_some lib gs c u td tg h
  subst htd
  subst htg
  constructor
  · exact (mergeSort_take_pairwise (filtradas lib gs c u) "diesel").imp
      (fun hxy => by
        simpa [leCombustible, leLex, claveOrden, decide_eq_true_iff] using hxy)
  · exact (mergeSort_take_pairwise (filtradas lib gs c u) "gasolina").imp
      (fun hxy => by
        simpa [leCombustible, leLex, claveOrden, decide_eq_true_iff] using hxy)

/-- C9: the function returns exactly one component: the error pair
`(None, mensaje)` precisely when no station passed the filter, and
otherwise a pair of non-empty top lists, each of length
`min 3 (number of filtered stations)`. -/
theorem C9_resultado_o_error (lib : PyLib) (gs : List RegistroCrudo)
    (c : Criterio) (u : ℚ) :
    (filtradas lib gs c u = [] →
      filtrar_y_obtener_top_3 lib gs c u = (none, some MSG_SIN_RESULTADOS)) ∧
    (filtradas lib gs c u ≠ [] → ∃ td tg,
      filtrar_y_obtener_top_3 lib gs c u = (some (td, tg), none) ∧
      td ≠ [] ∧ tg ≠ [] ∧
      td.length = min 3 (filtradas lib gs c u).length ∧
      tg.length = min 3 (filtradas lib gs c u).length) := by
  constructor
  · intro he
    unfold filtrar_y_obtener_top_3
    simp [he]
  · intro hne
    have hemp : (filtradas lib gs c u).isEmpty = false := by
      simpa [List.isEmpty_iff] using hne
    have hpos : 0 < (filtradas lib gs c u).length :=
      List.length_pos.mpr hne
    have hlen : ∀ f : String,
        (((filtradas lib gs c u).mergeSort (leCombustible f)).take 3).length =
          min 3 (filtradas lib gs c u).length := by
      intro f
      rw [List.length_take, (List.mergeSort_perm (filtradas lib gs c u)
        (leCombustible f)).length_eq]
    have hne3 : ∀ f : String,
        ((filtradas lib gs c u).mergeSort (leCombustible f)).take 3 ≠ [] := by
      intro f
      have : 0 < (((filtradas lib gs c u).mergeSort (leCombustible f)).take 3).length := by
        rw [hlen f]
        exact lt_min (by norm_num) hpos
      exact List.length_pos.mp this
    refine ⟨_, _, ?_, hne3 "diesel", hne3 "gasolina", hlen "diesel", hlen "gasolina"⟩
    unfold filtrar_y_obtener_top_3
    simp [hemp]

/-- C10: a returned record is the input record extended with the computed
keys: every original field (any key other than `diesel`, `gasolina`,
`distancia`) is unchanged, the parsed prices are stored under `diesel` and
`gasolina`, and `distancia` is written in location mode only, holding the
computed distance. -/
theorem C10_campos_originales (lib : PyLib) (c : Criterio) (u : ℚ)
    (g : RegistroCrudo) (r : Registro)
    (h : procesarGasolinera lib c u g = some r) :
    (∀ k, k ≠ "diesel" → k ≠ "gasolina" → k ≠ "distancia" →
      getVal r k = getVal (aRegistro g) k) ∧
    (∃ d, leerNumero g "Precio Gasoleo A" = some d ∧
      getVal r "diesel" = some (Valor.num d)) ∧
    (∃ q, leerNumero g "Precio Gasolina 95 E5" = some q ∧
      getVal r "gasolina" = some (Valor.num q)) ∧
    (∀ texto, c = Criterio.ciudad texto →
      getVal r "distancia" = getVal (aRegistro g) "distancia") ∧
    (∀ ulat ulon, c = Criterio.ubicacion ulat ulon →
      ∃ la lo, leerNumero g "Latitud" = some la ∧
        leerNumero g "Longitud (WGS84)" = some lo ∧
        getVal r "distancia" = some (Valor.num (lib.haversineF ulat ulon la lo))) := by
  have hdg : ("diesel" : String) ≠ "gasolina" := by decide
  have hgd : ("gasolina" : String) ≠ "diesel" := by decide
  have hsd : ("distancia" : String) ≠ "diesel" := by decide
  have hsg : ("distancia" : String) ≠ "gasolina" := by decide
  obtain ⟨d, q, la, lo, hd, hq, hla, hlo, -, -, -, -, -, -, -, hmode⟩ :=
    procesar_eq_some _ _ _ _ _ h
  rcases hmode with ⟨texto, hc, -, hr⟩ | ⟨ulat, ulon, hc, -, hr⟩
  · subst hc
    subst hr
    refine ⟨?_, ⟨d, hd, ?_⟩, ⟨q, hq, ?_⟩, ?_, ?_⟩
    · intro k h1 h2 h3
      rw [getVal_setVal_otro _ _ _ _ h2, getVal_setVal_otro _ _ _ _ h1]
    · rw [getVal_setVal_otro _ _ _ _ hdg, getVal_setVal_self]
    · rw [getVal_setVal_self]
    · intro _ _
      rw [getVal_setVal_otro _ _ _ _ hsg, getVal_setVal_otro _ _ _ _ hsd]
    · intro ulat ulon hcc
      exact Criterio.noConfusion hcc
  · subst hc
    subst hr
    refine ⟨?_, ⟨d, hd, ?_⟩, ⟨q, hq, ?_⟩, ?_, ?_⟩
    · intro k h1 h2 h3
      rw [getVal_setVal_otro _ _ _ _ h2, getVal_setVal_otro _ _ _ _ h1,
        getVal_setVal_otro _ _ _ _ h3]
    · rw [getVal_setVal_otro _ _ _ _ hdg, getVal_setVal_self]
    · rw [getVal_setVal_self]
    · intro texto hcc
      exact Criterio.noConfusion hcc
    · intro ulat2 ulon2 hcc
      injection hcc with he1 he2
      subst he1
      subst he2
      refine ⟨la, lo, hla, hlo, ?_⟩
      rw [getVal_setVal_otro _ _ _ _ hsg, getVal_setVal_otro _ _ _ _ hsd,
        getVal_setVal_self]

/-! ### Evaluation facts for the concrete example records -/

theorem leer_gEjemplo_diesel :
    leerNumero gEjemplo "Precio Gasoleo A" = some (1459 / 1000) := by
  simp [leerNumero, gEjemplo, getCampo, reemplazarChar, pyFloat, pyFloatSinSigno,
    valorDigitos, List.find?, List.takeWhile, List.dropWhile, List.foldl]
  norm_num

theorem leer_gEjemplo_gasolina :
    leerNumero gEjemplo "Precio Gasolina 95 E5" = some (1512 / 1000) := by
  simp [leerNumero, gEjemplo, getCampo, reemplazarChar, pyFloat, pyFloatSinSigno,
    valorDigitos, List.find?, List.takeWhile, List.dropWhile, List.foldl]
  norm_num

theorem leer_gEjemplo_lat :
    leerNumero gEjemplo "Latitud" = some (404168 / 10000) := by
  simp [leerNumero, gEjemplo, getCampo, reemplazarChar, pyFloat, pyFloatSinSigno,
    valorDigitos, List.find?, List.takeWhile, List.dropWhile, List.foldl]
  norm_num

theorem leer_gEjemplo_lon :
    leerNumero gEjemplo "Longitud (WGS84)" = some (-(37038 / 10000)) := by
  simp [leerNumero, gEjemplo, getCampo, reemplazarChar, pyFloat, pyFloatSinSigno,
    valorDigitos, List.find?, List.takeWhile, List.dropWhile, List.foldl]
  norm_num

theorem en_madrid :
    enCadena "madrid" (normalizar lib0 (getCampo gEjemplo "Municipio" "")) = true := rfl

theorem procesar_gEjemplo :
    procesarGasolinera lib0 (Criterio.ciudad "madrid") 20 gEjemplo = some rEjemplo := by
  rw [procesar_ciudad_eq lib0 20 gEjemplo "madrid" (1459 / 1000) (1512 / 1000)
    (404168 / 10000) (-(37038 / 10000)) leer_gEjemplo_diesel leer_gEjemplo_gasolina
    leer_gEjemplo_lat leer_gEjemplo_lon (by norm_num) (by norm_num), if_pos en_madrid]
  rfl

theorem filtradas_gEjemplo :
    filtradas lib0 [gEjemplo] (Criterio.ciudad "madrid") 20 = [rEjemplo] := by
  unfold filtradas
  simp [List.filterMap_cons, procesar_gEjemplo]

theorem filtrar_gEjemplo :
    filtrar_y_obtener_top_3 lib0 [gEjemplo] (Criterio.ciudad "madrid") 20 =
      (some ([rEjemplo], [rEjemplo]), none) := by
  unfold filtrar_y_obtener_top_3
  rw [filtradas_gEjemplo]
  simp [List.mergeSort_singleton]

theorem leer_malformada :
    leerNumero gMalformada "Precio Gasoleo A" = none := by
  simp [leerNumero, gMalformada, getCampo, reemplazarChar, pyFloat, pyFloatSinSigno,
    valorDigitos, List.find?, List.takeWhile, List.dropWhile, List.foldl]

/-! ### Missing fields default to "0" and skipping is contagious -/

theorem leerNumero_faltante (g : RegistroCrudo) (k : String)
    (h : ∀ p ∈ g, p.1 ≠ k) : leerNumero g k = some 0 := by
  have hf : g.find? (fun p => p.1 == k) = none := by
    rw [List.find?_eq_none]
    intro p hp
    simpa using h p hp
  simp only [leerNumero, getCampo, hf]
  simp [reemplazarChar, pyFloat, pyFloatSinSigno, valorDigitos]

theorem procesar_none_of_precio_cero (lib : PyLib) (c : Criterio) (u : ℚ)
    (g : RegistroCrudo)
    (h : leerNumero g "Precio Gasoleo A" = some 0 ∨
      leerNumero g "Precio Gasolina 95 E5" = some 0) :
    procesarGasolinera lib c u g = none := by
  cases hr : procesarGasolinera lib c u g with
  | none => rfl
  | some r =>
      obtain ⟨d, q, la, lo, hd, hq, hla, hlo, hd0, hq0, -⟩ :=
        procesar_eq_some _ _ _ _ _ hr
      rcases h with h | h
      · rw [hd] at h
        rw [(Option.some.injEq _ _).mp h] at hd0
        exact absurd hd0 (lt_irrefl 0)
      · rw [hq] at h
        rw [(Option.some.injEq _ _).mp h] at hq0
        exact absurd hq0 (lt_irrefl 0)

theorem procesar_none_of_coords_cero (lib : PyLib) (c : Criterio) (u : ℚ)
    (g : RegistroCrudo)
    (hla0 : leerNumero g "Latitud" = some 0)
    (hlo0 : leerNumero g "Longitud (WGS84)" = some 0) :
    procesarGasolinera lib c u g = none := by
  cases hr : procesarGasolinera lib c u g with
  | none => rfl
  | some r =>
      obtain ⟨d, q, la, lo, hd, hq, hla, hlo, hd0, hq0, hz, -⟩ :=
        procesar_eq_some _ _ _ _ _ hr
      rw [hla] at hla0
      rw [hlo] at hlo0
      exact absurd ⟨(Option.some.injEq _ _).mp hla0,
        (Option.some.injEq _ _).mp hlo0⟩ hz

theorem filtradas_append_skip (lib : PyLib) (c : Criterio) (u : ℚ)
    (g : RegistroCrudo) (l1 l2 : List RegistroCrudo)
    (hnone : procesarGasolinera lib c u g = none) :
    filtradas lib (l1 ++ g :: l2) c u = filtradas lib (l1 ++ l2) c u := by
  unfold filtradas
  rw [List.filterMap_append, List.filterMap_append,
    List.filterMap_cons_none hnone]

theorem filtrar_congr (lib : PyLib) (gs1 gs2 : List RegistroCrudo)
    (c : Criterio) (u : ℚ)
    (h : filtradas lib gs1 c u = filtradas lib gs2 c u) :
    filtrar_y_obtener_top_3 lib gs1 c u = filtrar_y_obtener_top_3 lib gs2 c u := by
  unfold filtrar_y_obtener_top_3
  rw [h]

theorem haversine_misma_posicion (lat lon : ℝ) : haversine lat lon lat lon = 0 := by
  have harg : (⟨1, 0⟩ : ℂ) = 1 := by
    rw [Complex.ext_iff]
    norm_num
  simp only [haversine, atan2, sub_self]
  norm_num [Real.sin_zero]
  rw [harg, Complex.arg_one]

/-- C4 (amended): a record with an unparseable price or coordinate field
is skipped, as is one missing a price field (the default "0" is rejected)
or missing both coordinate fields; a skipped record never changes the
result computed for the others.  (A record missing exactly one coordinate
field is instead read with that coordinate equal to 0 and can be
admitted.) -/
theorem C4_totalidad_y_no_interferencia (lib : PyLib) (c : Criterio) (u : ℚ)
    (g : RegistroCrudo) (l1 l2 : List RegistroCrudo)
    (h : leerNumero g "Precio Gasoleo A" = none ∨
      leerNumero g "Precio Gasolina 95 E5" = none ∨
      leerNumero g "Latitud" = none ∨
      leerNumero g "Longitud (WGS84)" = none ∨
      (∀ p ∈ g, p.1 ≠ "Precio Gasoleo A") ∨
      (∀ p ∈ g, p.1 ≠ "Precio Gasolina 95 E5") ∨
      ((∀ p ∈ g, p.1 ≠ "Latitud") ∧ (∀ p ∈ g, p.1 ≠ "Longitud (WGS84)"))) :
    procesarGasolinera lib c u g = none ∧
    filtrar_y_obtener_top_3 lib (l1 ++ g :: l2) c u =
      filtrar_y_obtener_top_3 lib (l1 ++ l2) c u := by
  have hnone : procesarGasolinera lib c u g = none := by
    rcases h with h | h | h | h | h | h | ⟨h1, h2⟩
    · exact procesar_none_of_parse_fail lib c u g (Or.inl h)
    · exact procesar_none_of_parse_fail lib c u g (Or.inr (Or.inl h))
    · exact procesar_none_of_parse_fail lib c u g (Or.inr (Or.inr (Or.inl h)))
    · exact procesar_none_of_parse_fail lib c u g (Or.inr (Or.inr (Or.inr h)))
    · exact procesar_none_of_precio_cero lib c u g
        (Or.inl (leerNumero_faltante g _ h))
    · exact procesar_none_of_precio_cero lib c u g
        (Or.inr (leerNumero_faltante g _ h))
    · exact procesar_none_of_coords_cero lib c u g
        (leerNumero_faltante g _ h1) (leerNumero_faltante g _ h2)
  exact ⟨hnone, filtrar_congr lib _ _ c u
    (filtradas_append_skip lib c u g l1 l2 hnone)⟩

/-- The record `gFaltaLatitud` has no `Latitud` field. -/
theorem faltaLatitud_sin_latitud : ∀ p ∈ gFaltaLatitud, p.1 ≠ "Latitud" := by
  simp [gFaltaLatitud]

/-- The missing `Latitud` field of `gFaltaLatitud` parses to 0. -/
theorem leer_faltaLatitud_latitud :
    leerNumero gFaltaLatitud "Latitud" = some 0 :=
  leerNumero_faltante _ _ faltaLatitud_sin_latitud

/-- Despite its missing `Latitud` field, `gFaltaLatitud` is admitted by
the city-mode filter: the defaulted latitude 0 together with a valid
longitude passes the coordinate check. -/
theorem procesar_faltaLatitud :
    procesarGasolinera lib0 (Criterio.ciudad "madrid") 20 gFaltaLatitud ≠ none := by
  have hd : leerNumero gFaltaLatitud "Precio Gasoleo A" = some (15 / 10) := by
    simp [leerNumero, gFaltaLatitud, getCampo, reemplazarChar, pyFloat,
      pyFloatSinSigno, valorDigitos, List.find?, List.takeWhile, List.dropWhile,
      List.foldl]
    norm_num
  have hq : leerNumero gFaltaLatitud "Precio Gasolina 95 E5" = some (14 / 10) := by
    simp [leerNumero, gFaltaLatitud, getCampo, reemplazarChar, pyFloat,
      pyFloatSinSigno, valorDigitos, List.find?, List.takeWhile, List.dropWhile,
      List.foldl]
    norm_num
  have hlo : leerNumero gFaltaLatitud "Longitud (WGS84)" = some (35 / 10) := by
    simp [leerNumero, gFaltaLatitud, getCampo, reemplazarChar, pyFloat,
      pyFloatSinSigno, valorDigitos, List.find?, List.takeWhile, List.dropWhile,
      List.foldl]
    norm_num
  rw [procesar_ciudad_eq lib0 20 gFaltaLatitud "madrid" (15 / 10) (14 / 10) 0
    (35 / 10) hd hq leer_faltaLatitud_latitud hlo (by norm_num) (by norm_num),
    if_pos (show enCadena "madrid"
      (normalizar lib0 (getCampo gFaltaLatitud "Municipio" "")) = true from rfl)]
  simp

/-- C4 (counterexample): a record whose `Latitud` field is missing is not
skipped: it is admitted in city mode. -/
theorem C4_contraejemplo :
    (∀ p ∈ gFaltaLatitud, p.1 ≠ "Latitud") ∧
    procesarGasolinera lib0 (Criterio.ciudad "madrid") 20 gFaltaLatitud ≠ none :=
  ⟨faltaLatitud_sin_latitud, procesar_faltaLatitud⟩

/-- C8 (counterexample): the missing `Latitud` field defaults to 0 but the
record is not rejected as invalid: it is admitted in city mode. -/
theorem C8_contraejemplo :
    (∀ p ∈ gFaltaLatitud, p.1 ≠ "Latitud") ∧
    leerNumero gFaltaLatitud "Latitud" = some 0 ∧
    procesarGasolinera lib0 (Criterio.ciudad "madrid") 20 gFaltaLatitud ≠ none :=
  ⟨faltaLatitud_sin_latitud, leer_faltaLatitud_latitud, procesar_faltaLatitud⟩

/-- C7: `normalizar` returns the NFD decomposition with the
combining-mark (category Mn) characters removed and the result
lowercased; provided lowercasing does not introduce combining marks and
its output contains no uppercase characters, the result has neither
combining marks nor uppercase characters. -/
theorem C7_normalizar (lib : PyLib) (texto : String)
    (hMn : ∀ s : String, (∀ c ∈ s.data, lib.catMn c = false) →
      ∀ c ∈ (lib.lower s).data, lib.catMn c = false)
    (hUp : ∀ s : String, ∀ c ∈ (lib.lower s).data, lib.isUpper c = false) :
    normalizar lib texto =
      lib.lower (String.mk ((lib.nfd texto).data.filter
        (fun c => !(lib.catMn c)))) ∧
    (∀ c ∈ (normalizar lib texto).data, lib.catMn c = false) ∧
    (∀ c ∈ (normalizar lib texto).data, lib.isUpper c = false) := by
  refine ⟨rfl, ?_, ?_⟩
  · intro c hc
    unfold normalizar at hc
    refine hMn _ ?_ c hc
    intro c2 hc2
    have hc2f : c2 ∈ ((lib.nfd texto).data.filter (fun x => !(lib.catMn x))) := hc2
    have := (List.mem_filter.mp hc2f).2
    simpa using this
  · intro c hc
    exact hUp _ c hc

/-- C8: a numeric field is read by replacing the comma with a point and
parsing the result as a decimal number; the feed value "1,459" denotes
exactly 1459/1000; a missing field defaults to "0", which parses to 0,
and a record missing either price field is rejected by the filter. -/
theorem C8_campos_decimales (lib : PyLib) (c : Criterio) (u : ℚ)
    (g : RegistroCrudo) (k : String) :
    leerNumero g k = pyFloat (reemplazarChar (getCampo g k "0") ',' '.') ∧
    (getCampo g k "0" = "1,459" → leerNumero g k = some (1459 / 1000)) ∧
    ((∀ p ∈ g, p.1 ≠ k) → leerNumero g k = some 0) ∧
    ((∀ p ∈ g, p.1 ≠ "Precio Gasoleo A") →
      procesarGasolinera lib c u g = none) ∧
    ((∀ p ∈ g, p.1 ≠ "Precio Gasolina 95 E5") →
      procesarGasolinera lib c u g = none) := by
  refine ⟨rfl, ?_, leerNumero_faltante g k, ?_, ?_⟩
  · intro hg
    rw [leerNumero, hg]
    simp [reemplazarChar, pyFloat, pyFloatSinSigno, valorDigitos,
      List.takeWhile, List.dropWhile, List.foldl]
    norm_num
  · intro hfal
    exact procesar_none_of_precio_cero lib c u g
      (Or.inl (leerNumero_faltante g _ hfal))
  · intro hfal
    exact procesar_none_of_precio_cero lib c u g
      (Or.inr (leerNumero_faltante g _ hfal))

/-! ### Closed witnesses -/

theorem C1_testigo :
    filtrar_y_obtener_top_3 lib0 [gEjemplo] (Criterio.ciudad "madrid") 20 =
      (some ([rEjemplo], [rEjemplo]), none) ∧
    ([rEjemplo].length ≤ 3 ∧
      ∀ x ∈ [rEjemplo], x ∈ filtradas lib0 [gEjemplo] (Criterio.ciudad "madrid") 20) :=
  ⟨filtrar_gEjemplo,
    (C1_top3_mas_baratas lib0 [gEjemplo] (Criterio.ciudad "madrid") 20
      [rEjemplo] [rEjemplo] filtrar_gEjemplo).1,
    (C1_top3_mas_baratas lib0 [gEjemplo] (Criterio.ciudad "madrid") 20
      [rEjemplo] [rEjemplo] filtrar_gEjemplo).2.2.1⟩

theorem C3_testigo :
    leerNumero gEjemplo "Precio Gasoleo A" = some (1459 / 1000) ∧
    ((procesarGasolinera lib0
        (Criterio.ubicacion (404168 / 10000) (-(37038 / 10000))) 20
        gEjemplo).isSome = true ↔
      haversine ((404168 / 10000 : ℚ) : ℝ) ((-(37038 / 10000) : ℚ) : ℝ)
        ((404168 / 10000 : ℚ) : ℝ) ((-(37038 / 10000) : ℚ) : ℝ) ≤
        ((20 : ℚ) : ℝ)) ∧
    UMBRAL_DISTANCIA_POR_DEFECTO = 20 := by
  have hfloat : lib0.haversineF (404168 / 10000) (-(37038 / 10000))
      (404168 / 10000) (-(37038 / 10000)) ≤ 20 ↔
      haversine ((404168 / 10000 : ℚ) : ℝ) ((-(37038 / 10000) : ℚ) : ℝ)
        ((404168 / 10000 : ℚ) : ℝ) ((-(37038 / 10000) : ℚ) : ℝ) ≤
        ((20 : ℚ) : ℝ) := by
    constructor
    · intro _
      rw [haversine_misma_posicion]
      norm_num
    · intro _
      show (0 : ℚ) ≤ 20
      norm_num
  have h := C3_admision_ubicacion lib0 20 gEjemplo (404168 / 10000)
    (-(37038 / 10000)) (1459 / 1000) (1512 / 1000) (404168 / 10000)
    (-(37038 / 10000)) leer_gEjemplo_diesel (by norm_num) leer_gEjemplo_gasolina
    (by norm_num) leer_gEjemplo_lat leer_gEjemplo_lon (by norm_num)
    (by norm_num) hfloat
  exact ⟨leer_gEjemplo_diesel, h.1, h.2⟩

theorem C4_testigo :
    leerNumero gMalformada "Precio Gasoleo A" = none ∧
    procesarGasolinera lib0 (Criterio.ciudad "madrid") 20 gMalformada = none ∧
    filtrar_y_obtener_top_3 lib0 ([gEjemplo] ++ gMalformada :: [])
        (Criterio.ciudad "madrid") 20 =
      filtrar_y_obtener_top_3 lib0 ([gEjemplo] ++ [])
        (Criterio.ciudad "madrid") 20 := by
  have h := C4_totalidad_y_no_interferencia lib0 (Criterio.ciudad "madrid") 20
    gMalformada [gEjemplo] [] (Or.inl leer_malformada)
  exact ⟨leer_malformada, h.1, h.2⟩

theorem C5_testigo :
    filtrar_y_obtener_top_3 lib0 [gEjemplo] (Criterio.ciudad "madrid") 20 =
      (some ([rEjemplo], [rEjemplo]), none) ∧
    ∃ g, g ∈ [gEjemplo] ∧
      procesarGasolinera lib0 (Criterio.ciudad "madrid") 20 g = some rEjemplo ∧
      (∃ d, leerNumero g "Precio Gasoleo A" = some d ∧ 0 < d) ∧
      (∃ q, leerNumero g "Precio Gasolina 95 E5" = some q ∧ 0 < q) :=
  ⟨filtrar_gEjemplo,
    C5_precios_validos_en_top lib0 [gEjemplo] (Criterio.ciudad "madrid") 20
      [rEjemplo] [rEjemplo] rEjemplo filtrar_gEjemplo
      (Or.inl (List.mem_singleton.mpr rfl))⟩

theorem C6_testigo :
    filtrar_y_obtener_top_3 lib0 [gEjemplo] (Criterio.ciudad "madrid") 20 =
      (some ([rEjemplo], [rEjemplo]), none) ∧
    [rEjemplo].Pairwise (fun x y => precio x "diesel" < precio y "diesel" ∨
      (precio x "diesel" = precio y "diesel" ∧
        precio x "distancia" ≤ precio y "distancia")) :=
  ⟨filtrar_gEjemplo,
    (C6_top3_ordenadas lib0 [gEjemplo] (Criterio.ciudad "madrid") 20
      [rEjemplo] [rEjemplo] filtrar_gEjemplo).1⟩

theorem C7_testigo :
    normalizar lib1 "Cádiz" =
      lib1.lower (String.mk ((lib1.nfd "Cádiz").data.filter
        (fun c => !(lib1.catMn c)))) ∧
    (∀ c ∈ (normalizar lib1 "Cádiz").data, lib1.catMn c = false) ∧
    (∀ c ∈ (normalizar lib1 "Cádiz").data, lib1.isUpper c = false) :=
  C7_normalizar lib1 "Cádiz" (fun _ h => h) (fun _ _ _ => rfl)

theorem C8_testigo :
    getCampo gEjemplo "Precio Gasoleo A" "0" = "1,459" ∧
    leerNumero gEjemplo "Precio Gasoleo A" = some (1459 / 1000) ∧
    (∀ p ∈ gSinPrecios, p.1 ≠ "Precio Gasoleo A") ∧
    procesarGasolinera lib0 (Criterio.ciudad "madrid") 20 gSinPrecios = none ∧
    (∀ p ∈ gSinGasolina, p.1 ≠ "Precio Gasolina 95 E5") ∧
    procesarGasolinera lib0 (Criterio.ciudad "madrid") 20 gSinGasolina = none := by
  have hcampo : getCampo gEjemplo "Precio Gasoleo A" "0" = "1,459" := rfl
  have hmiss : ∀ p ∈ gSinPrecios, p.1 ≠ "Precio Gasoleo A" := by
    simp [gSinPrecios]
  have hmiss2 : ∀ p ∈ gSinGasolina, p.1 ≠ "Precio Gasolina 95 E5" := by
    simp [gSinGasolina]
  exact ⟨hcampo,
    (C8_campos_decimales lib0 (Criterio.ciudad "madrid") 20 gEjemplo
      "Precio Gasoleo A").2.1 hcampo,
    hmiss,
    (C8_campos_decimales lib0 (Criterio.ciudad "madrid") 20 gSinPrecios
      "Precio Gasoleo A").2.2.2.1 hmiss,
    hmiss2,
    (C8_campos_decimales lib0 (Criterio.ciudad "madrid") 20 gSinGasolina
      "Precio Gasoleo A").2.2.2.2 hmiss2⟩

theorem C9_testigo :
    filtradas lib0 [gEjemplo] (Criterio.ciudad "madrid") 20 ≠ [] ∧
    ∃ td tg, filtrar_y_obtener_top_3 lib0 [gEjemplo]
        (Criterio.ciudad "madrid") 20 = (some (td, tg), none) ∧
      td ≠ [] ∧ tg ≠ [] ∧
      td.length = min 3 (filtradas lib0 [gEjemplo]
        (Criterio.ciudad "madrid") 20).length ∧
      tg.length = min 3 (filtradas lib0 [gEjemplo]
        (Criterio.ciudad "madrid") 20).length := by
  have hne : filtradas lib0 [gEjemplo] (Criterio.ciudad "madrid") 20 ≠ [] := by
    rw [filtradas_gEjemplo]
    simp
  exact ⟨hne,
    (C9_resultado_o_error lib0 [gEjemplo] (Criterio.ciudad "madrid") 20).2 hne⟩

theorem C10_testigo :
    procesarGasolinera lib0 (Criterio.ciudad "madrid") 20 gEjemplo =
      some rEjemplo ∧
    (∃ d, leerNumero gEjemplo "Precio Gasoleo A" = some d ∧
      getVal rEjemplo "diesel" = some (Valor.num d)) ∧
    getVal rEjemplo "Municipio" = getVal (aRegistro gEjemplo) "Municipio" := by
  have h := C10_campos_originales lib0 (Criterio.ciudad "madrid") 20 gEjemplo
    rEjemplo procesar_gEjemplo
  exact ⟨procesar_gEjemplo, h.2.1,
    h.1 "Municipio" (by decide) (by decide) (by decide)⟩
